import Mathlib

/-!
# Verification of the proxmox ACME client core

Shallow embedding of the ACME protocol client of `proxmox-acme/src/client.rs`
and of the challenge plugins of `proxmox-acme-api/src/acme_plugin.rs`.

The network is modelled by a *script*: a list of exchange results consumed in
order, one per HTTP exchange the code performs.  JSON (de)serialization is an
external collaborator (serde), so a response body is modelled by what it
parses to.  All state mutation of the Rust code is made explicit by threading
the client state through each operation.
-/

namespace ProxmoxAcme

/-- An ACME problem document as deserialized from an error response body
(`ErrorResponse` of `proxmox-acme/src/request.rs`, which is consumed by
`client.rs` through its `ty` field). -/
structure ErrorResponse where
  ty : String
  detail : String
deriving DecidableEq, Repr

/-- Modelled from the spec: the well-known "bad nonce" ACME problem type
(`error::BAD_NONCE` of `proxmox-acme/src/error.rs`, not under `src/`;
RFC 8555 names it as below, and only its identity matters here). -/
def BAD_NONCE : String := "urn:ietf:params:acme:error:badNonce"

/-- The error type of the client (`proxmox-acme/src/error.rs` is not under
`src/`; the variants are the ones `client.rs` constructs and matches on:
`Error::Client` via `format_err!`/`bail!`, `Error::InvalidApi`,
`Error::BadNonce`, `Error::Api`, and the serde-error conversion used by
`HttpResponse::json`, modelled as `Json`). -/
inductive Error where
  | Client (msg : String)
  | InvalidApi (msg : String)
  | BadNonce
  | Api (e : ErrorResponse)
  | Json (msg : String)
deriving DecidableEq, Repr

/-- Modelled from the spec: `Error::is_bad_nonce` distinguishes the retryable
bad-nonce error from every fatal error kind. -/
def Error.is_bad_nonce : Error → Bool
  | .BadNonce => true
  | _ => false

/-- The response body.  Since JSON parsing is an external collaborator, the
raw byte vector is modelled by its parse outcome for each type `client.rs`
deserializes a body into. -/
inductive Body where
  /-- Parses as no type the client ever asks for (malformed JSON etc.). -/
  | invalid
  /-- Parses as an ACME problem document. -/
  | errorDoc (ty : String) (detail : String)
  /-- Parses as the directory metadata object. -/
  | directoryData (d : String)
  /-- Parses as account data (contents opaque to `client.rs`). -/
  | accountData (d : String)
  /-- Parses as order data (contents opaque to `client.rs`). -/
  | orderData (d : String)
deriving DecidableEq, Repr

/-- Headers of the HTTP response which are relevant to the ACME API
(`Headers` in `client.rs`). -/
structure Headers where
  location : Option String
  nonce : Option String
deriving DecidableEq, Repr

/-- Low level HTTP response structure (`HttpResponse` in `client.rs`). -/
structure HttpResponse where
  body : Body
  status : Nat
  headers : Headers
deriving DecidableEq, Repr

/-- Embeds `HttpResponse::is_success`: check the status code for a success code
(200..299). -/
def HttpResponse.is_success (r : HttpResponse) : Bool :=
  200 ≤ r.status && r.status < 300

/-- Embeds `HttpResponse::location_required`: assert that a location header was part
of the response; `format_err!` produces an `Error::Client`. -/
def HttpResponse.location_required (r : HttpResponse) : Except Error String :=
  match r.headers.location with
  | some l => .ok l
  | none => .error (.Client "missing Location header")

/-- Embeds `HttpResponse::json::<ErrorResponse>()`: deserialize the body as an ACME
problem document. -/
def HttpResponse.json_error_response (r : HttpResponse) : Except Error ErrorResponse :=
  match r.body with
  | .errorDoc ty detail => .ok ⟨ty, detail⟩
  | _ => .error (.Json "invalid error response body")

/-- Embeds `HttpResponse::json::<DirectoryData>()`: deserialize the body as
directory metadata. -/
def HttpResponse.json_directory (r : HttpResponse) : Except Error String :=
  match r.body with
  | .directoryData d => .ok d
  | _ => .error (.Json "invalid directory body")

/-- Modelled from the spec: the `Directory` (its struct lives in
`proxmox-acme/src/directory.rs`, not under `src/`): the server's endpoint
URL map plus its own source URL, created by `Directory::from_parts` and
queried through accessors such as `new_nonce_url`. -/
structure Directory where
  url : String
  /-- opaque parsed directory metadata, as returned by `json_directory` -/
  data : String
deriving DecidableEq, Repr

/-- Embeds `Directory::from_parts(url, data)`. -/
def Directory.from_parts (url : String) (data : String) : Directory :=
  ⟨url, data⟩

/-- Modelled from the spec: the new-nonce endpoint URL held by the directory
metadata (`Directory::new_nonce_url`); derived deterministically from the
opaque metadata here. -/
def Directory.new_nonce_url (d : Directory) : String :=
  "newNonce:" ++ d.data

/-- A signed request as built by the account layer and consumed by
`run_request` (struct `Request` of `proxmox-acme/src/request.rs`, not under
`src/`; the fields are exactly the ones `client.rs` reads). -/
structure Request where
  url : String
  method : String
  content_type : String
  body : String
  /-- the status code the caller expects on success -/
  expected : Nat
deriving DecidableEq, Repr

/-- The result of one transport exchange: either a transport error or a
response. -/
abbrev ExchangeResult := Except Error HttpResponse

/-- The scripted network: the list of exchange results the transport will
produce, in order.  `Inner::execute` consumes one entry per call. -/
abbrev Script := List ExchangeResult

/-- The nonce-holding part of the client (`Inner` in `client.rs`; the
`agent`/`proxy` fields configure the HTTP library and play no part in the
claims, so only the nonce holder is modelled). -/
structure Inner where
  nonce : Option String
deriving DecidableEq, Repr

/-- Embeds `Inner::execute`: perform one HTTP exchange.  In this model the network
is scripted, so `execute` pops the next scripted result; an exhausted script
stands for a transport failure. -/
def execute (script : Script) : ExchangeResult × Script :=
  match script with
  | [] => (.error (.Client "http request failed: script exhausted"), [])
  | e :: rest => (e, rest)

/-- Embeds `Inner::update_nonce`: if the response contained a nonce, move it out of
the response into the client and return `true`, otherwise return `false`. -/
def Inner.update_nonce (inner : Inner) (response : HttpResponse) :
    Bool × Inner × HttpResponse :=
  match response.headers.nonce with
  | some nonce =>
    (true, { inner with nonce := some nonce },
      { response with headers := { response.headers with nonce := none } })
  | none => (false, inner, response)

/-- Embeds `Inner::run_request`: execute the request, unconditionally update the
nonce from the response, then check the status: a success status must match
the expected one; an error status is parsed as a problem document, the
bad-nonce type mapping to the retryable `Error.BadNonce` only when a
replacement nonce was present. -/
def Inner.run_request (inner : Inner) (request : Request) (script : Script) :
    Except Error HttpResponse × Inner × Script :=
  match execute script with
  | (.error _e, script') =>
    (.error (.Client "failed to execute request"), inner, script')
  | (.ok response, script') =>
    let gni := inner.update_nonce response
    let got_nonce := gni.1
    let inner' := gni.2.1
    let response' := gni.2.2
    if response'.is_success then
      if response'.status ≠ request.expected then
        (.error (.InvalidApi "API server responded with unexpected status code"),
          inner', script')
      else
        (.ok response', inner', script')
    else
      match response'.json_error_response with
      | .error _ =>
        (.error (.Client "error status with improper error ACME response"),
          inner', script')
      | .ok error =>
        if error.ty = BAD_NONCE then
          if !got_nonce then
            (.error (.InvalidApi "badNonce without a new Replay-Nonce header"),
              inner', script')
          else
            (.error .BadNonce, inner', script')
        else
          (.error (.Api error), inner', script')

/-- Embeds `Inner::must_update_nonce`: update the nonce; if the response carried
none it is an error. -/
def Inner.must_update_nonce (inner : Inner) (response : HttpResponse) :
    Except Error Unit × Inner :=
  let gni := inner.update_nonce response
  if !gni.1 then
    (.error (.Client "newNonce URL did not return a nonce"), gni.2.1)
  else
    (.ok (), gni.2.1)

/-- Embeds `Inner::new_nonce`: HEAD on the newNonce URL; the fetch fails if the
response is unsuccessful or does not carry a nonce header. -/
def Inner.new_nonce (inner : Inner) (script : Script) (_new_nonce_url : String) :
    Except Error Unit × Inner × Script :=
  match execute script with
  | (.error _, script') =>
    (.error (.InvalidApi "failed to get HEAD of newNonce URL"), inner, script')
  | (.ok response, script') =>
    if !response.is_success then
      (.error (.Client "HEAD on newNonce URL returned error"), inner, script')
    else
      match inner.must_update_nonce response with
      | (.error e, inner') => (.error e, inner', script')
      | (.ok (), inner') => (.ok (), inner', script')

/-- Embeds `Inner::nonce` (named `nonce_or_fetch` here because the Lean field
projection `Inner.nonce` takes the source field's name): make sure a nonce is
available without forcing renewal. -/
def Inner.nonce_or_fetch (inner : Inner) (script : Script) (new_nonce_url : String) :
    Except Error String × Inner × Script :=
  if inner.nonce.isNone then
    match inner.new_nonce script new_nonce_url with
    | (.error e, inner', script') => (.error e, inner', script')
    | (.ok (), inner', script') =>
      match inner'.nonce with
      | some n => (.ok n, inner', script')
      | none => (.error (.Client "failed to get nonce"), inner', script')
  else
    match inner.nonce with
    | some n => (.ok n, inner, script)
    | none => (.error (.Client "failed to get nonce"), inner, script)

/-- Modelled from the spec: the registered ACME account as `client.rs` uses
it (struct `Account` of `proxmox-acme/src/account.rs`, not under `src/`): a
server-assigned location URL and the account data blob replaced by
`update_account`; the signing key never leaves the account layer and is not
modelled. -/
structure Account where
  location : String
  data : String
deriving DecidableEq, Repr

/-- Modelled from the spec: `AccountCreator` of `proxmox-acme/src/account.rs`
(not under `src/`): builds the signed account-creation request, possibly
several times with different nonces; only what `register_account` reads is
modelled (`request` and `response`, plus the expected success status the
built request carries). -/
structure AccountCreator where
  contact : List String
  tos_agreed : Bool
  expected : Nat
deriving DecidableEq, Repr

/-- Modelled from the spec: `AccountCreator::request(directory, nonce)`
builds the signed newAccount request; the nonce is embedded in the signed
body. -/
def AccountCreator.request (ac : AccountCreator) (directory : Directory)
    (nonce : String) : Request :=
  { url := directory.url ++ "/newAccount"
    method := "POST"
    content_type := "application/jose+json"
    body := nonce
    expected := ac.expected }

/-- Modelled from the spec: `AccountCreator::response(location, body)` parses
the success body into the `Account` stored at the returned location. -/
def AccountCreator.response (_ac : AccountCreator) (location : String)
    (body : Body) : Except Error Account :=
  match body with
  | .accountData d => .ok { location := location, data := d }
  | _ => .error (.Json "invalid account response body")

/-- Modelled from the spec: `Account::post_request(url, nonce, data)` builds
a signed POST carrying caller-supplied data (used by `update_account` and
`post`). -/
def Account.post_request (_a : Account) (url : String) (nonce : String)
    (data : String) : Request :=
  { url := url
    method := "POST"
    content_type := "application/jose+json"
    body := nonce ++ data
    expected := 200 }

/-- Modelled from the spec: `Account::get_request(url, nonce)` builds the
body-signed POST-as-GET request. -/
def Account.get_request (_a : Account) (url : String) (nonce : String) : Request :=
  { url := url
    method := "POST"
    content_type := "application/jose+json"
    body := nonce
    expected := 200 }

/-- The order payload under construction (`OrderData` of
`proxmox-acme/src/order.rs`, not under `src/`): `client.rs` only builds it by
folding `.domain(..)` over the requested domains, so the domain list is the
model. -/
abbrev OrderData := List String

/-- Embeds `OrderData::new()`. -/
def OrderData.new : OrderData := []

/-- Embeds `OrderData::domain(domain)`: add one domain to the payload. -/
def OrderData.domain (o : OrderData) (d : String) : OrderData := o ++ [d]

/-- Modelled from the spec: the parsed `Order` returned by `new_order`: its
location URL plus opaque parsed order data. -/
structure Order where
  location : String
  data : String
deriving DecidableEq, Repr

/-- Modelled from the spec: `Account::new_order(order, directory, nonce)`
builds the signed newOrder request (the request half of the `NewOrder`
helper). -/
def Account.new_order_request (_a : Account) (_order : OrderData)
    (directory : Directory) (nonce : String) : Request :=
  { url := directory.url ++ "/newOrder"
    method := "POST"
    content_type := "application/jose+json"
    body := nonce
    expected := 201 }

/-- Modelled from the spec: `NewOrder::response(location, body)` parses the
success body into the `Order` at the returned location. -/
def new_order_response (location : String) (body : Body) : Except Error Order :=
  match body with
  | .orderData d => .ok { location := location, data := d }
  | _ => .error (.Json "invalid order response body")

/-- Modelled from the spec: the revocation payload builder returned by
`Account::revoke_certificate(certificate, reason)`
(`proxmox-acme/src/account.rs`, not under `src/`). -/
structure Revocation where
  certificate : String
  reason : Option Nat
deriving DecidableEq, Repr

/-- Modelled from the spec: `Revocation::request(directory, nonce)` builds
the signed revokeCert request. -/
def Revocation.request (_r : Revocation) (directory : Directory)
    (nonce : String) : Request :=
  { url := directory.url ++ "/revokeCert"
    method := "POST"
    content_type := "application/jose+json"
    body := nonce
    expected := 200 }

deriving instance DecidableEq for Except

/-- The blocking ACME client (`Client` of `client.rs`) together with the
scripted network it will consume. -/
structure Client where
  inner : Inner
  directory : Option Directory
  account : Option Account
  directory_url : String
  script : Script
deriving DecidableEq, Repr

/-- Embeds `Client::get_directory`: return the cached `Directory`, otherwise GET the
directory URL, parse and cache it.  Caching happens only on success; every
failure leaves the cache untouched. -/
def Client.get_directory (c : Client) : Except Error Directory × Client :=
  match c.directory with
  | some d => (.ok d, c)
  | none =>
    match execute c.script with
    | (.error _, script') =>
      (.error (.InvalidApi "failed to get directory info"), { c with script := script' })
    | (.ok response, script') =>
      let c' := { c with script := script' }
      if !response.is_success then
        (.error (.Client "GET on the directory URL returned error status"), c')
      else
        match response.json_directory with
        | .error e => (.error e, c')
        | .ok data =>
          let d := Directory.from_parts c.directory_url data
          (.ok d, { c' with directory := some d })

/-- Embeds `Client::new_nonce`: get a fresh nonce.  The source short-circuits when
the directory query itself produced a nonce ("this was the first call and we
already got a nonce from querying the directory"); otherwise it HEADs the
newNonce URL. -/
def Client.new_nonce (c : Client) : Except Error Unit × Client :=
  let was_none := c.inner.nonce.isNone
  match Client.get_directory c with
  | (.error e, c') => (.error e, c')
  | (.ok directory, c') =>
    if was_none && c'.inner.nonce.isSome then
      -- this was the first call and we already got a nonce from querying the directory
      (.ok (), c')
    else
      -- otherwise actually call up to get a new nonce
      let rns := Inner.new_nonce c'.inner c'.script directory.new_nonce_url
      (rns.1, { c' with inner := rns.2.1, script := rns.2.2 })

/-- Embeds `Client::need_account`: fail with a client error when no account is
set. -/
def need_account (account : Option Account) : Except Error Account :=
  match account with
  | some a => .ok a
  | none => .error (.Client "cannot use client without an account")

/-- Embeds `Retry::tick` (with `retry()` starting the counter at 0): allow at most
3 passes through a bad-nonce retry loop, then fail fatally. -/
def Retry.tick (counter : Nat) : Except Error Nat :=
  if 3 ≤ counter then .error (.Client "kept getting a badNonce error!")
  else .ok (counter + 1)

/-- The retry-wrapped loop shared verbatim by all six workflow operations of
`client.rs`: tick the per-call counter, run one attempt, and loop back only
on the retryable bad-nonce error.  (The `Retry.tick` call is inlined as a
guard so that the recursion visibly terminates; `retry_loop_tick` below
proves the loop equal to its `Retry.tick` formulation.) -/
def retry_loop {α : Type} (attempt : Client → Except Error α × Client) :
    Nat → Client → Except Error α × Client
  | counter, c =>
    if _h : 3 ≤ counter then
      (.error (.Client "kept getting a badNonce error!"), c)
    else
      match attempt c with
      | (.ok v, c') => (.ok v, c')
      | (.error e, c') =>
        if e.is_bad_nonce then retry_loop attempt (counter + 1) c'
        else (.error e, c')
termination_by counter => 4 - counter
decreasing_by omega

/-- The loop body shared by the six workflow operations: obtain the directory
(fetch if absent), obtain a nonce (fetch if absent), build the signed request
from both, and execute it through `run_request`.  Errors of the directory and
nonce steps propagate (they are never `BadNonce`); the attempt's result feeds
the bad-nonce discrimination of `retry_loop`. -/
def acme_attempt (mkRequest : Directory → String → Request) (c : Client) :
    Except Error HttpResponse × Client :=
  match Client.get_directory c with
  | (.error e, c') => (.error e, c')
  | (.ok directory, c') =>
    match Inner.nonce_or_fetch c'.inner c'.script directory.new_nonce_url with
    | (.error e, inner', script') => (.error e, { c' with inner := inner', script := script' })
    | (.ok nonce, inner', script') =>
      let c2 : Client := { c' with inner := inner', script := script' }
      let rr := Inner.run_request c2.inner (mkRequest directory nonce) c2.script
      (rr.1, { c2 with inner := rr.2.1, script := rr.2.2 })

/-- Embeds `Client::register_account`: run the retry loop with the account-creation
request; on success require a Location header and store the parsed
account. -/
def Client.register_account (c : Client) (account : AccountCreator) :
    Except Error Account × Client :=
  match retry_loop (acme_attempt (account.request)) 0 c with
  | (.error e, c') => (.error e, c')
  | (.ok response, c') =>
    match response.location_required with
    | .error e => (.error e, c')
    | .ok location =>
      match account.response location response.body with
      | .error e => (.error e, c')
      | .ok acct => (.ok acct, { c' with account := some acct })

/-- Embeds `Client::update_account`: require an account, run the retry loop posting
the caller's data to the account's location, and replace the in-memory
account data with the server's response. -/
def Client.update_account (c : Client) (data : String) :
    Except Error Account × Client :=
  match need_account c.account with
  | .error e => (.error e, c)
  | .ok account =>
    match retry_loop (acme_attempt fun _dir nonce =>
        account.post_request account.location nonce data) 0 c with
    | (.error e, c') => (.error e, c')
    | (.ok response, c') =>
      match response.body with
      | .accountData d =>
        let account' := { account with data := d }
        (.ok account', { c' with account := some account' })
      | _ => (.error (.Json "invalid account response body"), c')

/-- Embeds `Client::new_order`: require an account, fold the domains into the order
payload, run the retry loop with the newOrder request; on success require a
Location header and parse the order. -/
def Client.new_order (c : Client) (domains : List String) :
    Except Error Order × Client :=
  match need_account c.account with
  | .error e => (.error e, c)
  | .ok account =>
    let order := domains.foldl OrderData.domain OrderData.new
    match retry_loop (acme_attempt fun directory nonce =>
        account.new_order_request order directory nonce) 0 c with
    | (.error e, c') => (.error e, c')
    | (.ok response, c') =>
      match response.location_required with
      | .error e => (.error e, c')
      | .ok location => (new_order_response location response.body, c')

/-- Embeds `Client::post_as_get`: require an account and run the retry loop with the
body-less authenticated GET substitute. -/
def Client.post_as_get (c : Client) (url : String) :
    Except Error HttpResponse × Client :=
  match need_account c.account with
  | .error e => (.error e, c)
  | .ok account =>
    retry_loop (acme_attempt fun _dir nonce => account.get_request url nonce) 0 c

/-- Embeds `Client::post`: require an account and run the retry loop with a signed
POST of the caller's data. -/
def Client.post (c : Client) (url : String) (data : String) :
    Except Error HttpResponse × Client :=
  match need_account c.account with
  | .error e => (.error e, c)
  | .ok account =>
    retry_loop (acme_attempt fun _dir nonce => account.post_request url nonce data) 0 c

/-- Embeds `Client::revoke_certificate`: require an account, build the revocation
payload once, and run the retry loop with the revokeCert request, discarding
the response body on success. -/
def Client.revoke_certificate (c : Client) (certificate : String)
    (reason : Option Nat) : Except Error Unit × Client :=
  match need_account c.account with
  | .error e => (.error e, c)
  | .ok _account =>
    let revocation : Revocation := { certificate := certificate, reason := reason }
    match retry_loop (acme_attempt (revocation.request)) 0 c with
    | (.error e, c') => (.error e, c')
    | (.ok _response, c') => (.ok (), c')

/-! ## Challenge plugins (`proxmox-acme-api/src/acme_plugin.rs`) -/

/-- Modelled from the spec: the configuration core of the DNS plugin (struct
`DnsPlugin` lives in `proxmox-acme-api/src/types.rs`, not under `src/`);
`acme_plugin.rs` reads exactly `core.api`, `core.validation_delay` and
`data`. -/
structure DnsPluginCore where
  api : String
  validation_delay : Option Nat
deriving DecidableEq, Repr

/-- Modelled from the spec: the DNS plugin configuration as `acme_plugin.rs`
consumes it; `data` is the free-form configuration blob piped to the helper
(bytes modelled as characters). -/
structure DnsPlugin where
  core : DnsPluginCore
  data : List Char
deriving DecidableEq, Repr

/-- The standard-input bytes `DnsPlugin::action` assembles for the helper
process: the TXT value, a pushed newline, the configured data, and one more
newline pushed only when the buffer's last byte is not already a newline. -/
def DnsPlugin.stdin_data (p : DnsPlugin) (txt_value : List Char) : List Char :=
  let s := txt_value ++ ['\n'] ++ p.data
  if s.getLast? ≠ some '\n' then s ++ ['\n'] else s

/-- The standard-input bytes as the specification's words describe them: the
digest, one newline, the configured data, then one trailing newline appended
only if the configured data does not already end in a newline.  Stated from
the spec, to be compared against `DnsPlugin.stdin_data`. -/
def DnsPlugin.stdin_data_speced (p : DnsPlugin) (txt_value : List Char) : List Char :=
  txt_value ++ ['\n'] ++ p.data ++
    (if p.data.getLast? ≠ some '\n' then ['\n'] else [])

/-- Embeds `DnsPlugin::setup` around a completed `action` call, with the sleep
effect made explicit: the source computes the delay, sleeps whenever it is
positive, and only then returns the action's result.  The first component is
`some d` when `tokio::time::sleep` runs for `d` seconds and `none` when the
sleep is skipped. -/
def DnsPlugin.setup (p : DnsPlugin) (action_result : Except Error String) :
    Option Nat × Except Error String :=
  let validation_delay := p.core.validation_delay.getD 30
  if 0 < validation_delay then
    (some validation_delay, action_result)
  else
    (none, action_result)

/-- An incoming HTTP request as the standalone responder sees it: method and
URI path. -/
structure HttpRequestModel where
  method : String
  path : String
deriving DecidableEq, Repr

/-- Embeds `standalone_respond`: the single-route handler of the HTTP-01 standalone
server; result modelled as status code and body. -/
def standalone_respond (req : HttpRequestModel) (path : String)
    (key_auth : String) : Nat × String :=
  if req.method = "GET" ∧ req.path = path then
    (200, key_auth)
  else
    (404, "Not found.")

/-- The well-known challenge path `StandaloneServer::setup` derives from the
challenge token. -/
def challenge_path (token : String) : String :=
  "/.well-known/acme-challenge/" ++ token

/-! ## Auxiliary definitions for the theorems -/

/-- A badNonce error response carrying a replacement nonce, as an ACME server
produces on a stale-nonce request. -/
def bad_nonce_response (nonce : String) : HttpResponse :=
  { status := 400
    headers := { location := none, nonce := some nonce }
    body := .errorDoc BAD_NONCE "JWS has an invalid anti-replay nonce" }

/-- Run a sequence of `run_request` exchanges, threading the nonce holder:
step `n` of the list provides the request and the scripted exchange result of
exchange `n`. -/
def run_request_seq (inner : Inner) : List (Request × ExchangeResult) → Inner
  | [] => inner
  | (req, exch) :: rest =>
    run_request_seq (Inner.run_request inner req [exch]).2.1 rest

/-- A sample request for concrete witnesses. -/
def reqW : Request :=
  { url := "https://ca.example/x"
    method := "POST"
    content_type := "application/jose+json"
    body := "payload"
    expected := 200 }

/-- A sample directory for concrete witnesses. -/
def dirW : Directory := ⟨"https://ca.example/dir", "dd"⟩

/-- A sample account for concrete witnesses. -/
def acctW : Account := ⟨"https://ca.example/acct/1", "ad"⟩

/-- A sample success response carrying a Location header and a nonce. -/
def okRespW : HttpResponse :=
  { status := 200
    headers := { location := some "https://ca.example/loc", nonce := some "n9" }
    body := .accountData "fresh" }

/-! ## Helper lemmas -/

/-- The guard-formulated `retry_loop` is exactly the `Retry::tick`-driven
loop of the source. -/
theorem retry_loop_tick {α : Type} (attempt : Client → Except Error α × Client)
    (counter : Nat) (c : Client) :
    retry_loop attempt counter c =
      match Retry.tick counter with
      | .error e => (.error e, c)
      | .ok counter' =>
        match attempt c with
        | (.ok v, c') => (.ok v, c')
        | (.error e, c') =>
          if e.is_bad_nonce then retry_loop attempt counter' c'
          else (.error e, c') := by
  rw [retry_loop]
  by_cases h : 3 ≤ counter <;> simp [Retry.tick, h]

/-- One attempt of the shared loop body against a cached directory, a held
nonce, and a scripted badNonce response: the attempt consumes exactly one
exchange, stores the replacement nonce, and yields the retryable error. -/
theorem acme_attempt_bad_nonce (mk : Directory → String → Request)
    (d : Directory) (acct : Option Account) (du n nn : String) (rest : Script) :
    acme_attempt mk ⟨⟨some n⟩, some d, acct, du, .ok (bad_nonce_response nn) :: rest⟩ =
      (.error .BadNonce, ⟨⟨some nn⟩, some d, acct, du, rest⟩) := by
  simp [acme_attempt, Client.get_directory, Inner.nonce_or_fetch, Inner.run_request,
    execute, Inner.update_nonce, bad_nonce_response, HttpResponse.is_success,
    HttpResponse.json_error_response]

/-- Three consecutive scripted badNonce responses exhaust the per-call retry
counter: the loop fails with the fatal message after consuming exactly the
three exchanges, whatever the script holds afterwards. -/
theorem retry_loop_three_bad (mk : Directory → String → Request)
    (d : Directory) (acct : Option Account) (du n n1 n2 n3 : String) (rest : Script) :
    retry_loop (acme_attempt mk) 0
        ⟨⟨some n⟩, some d, acct, du,
          .ok (bad_nonce_response n1) :: .ok (bad_nonce_response n2) ::
          .ok (bad_nonce_response n3) :: rest⟩ =
      (.error (.Client "kept getting a badNonce error!"),
        ⟨⟨some n3⟩, some d, acct, du, rest⟩) := by
  simp [retry_loop, acme_attempt_bad_nonce, Error.is_bad_nonce]

/-- A single `run_request` step with a scripted response updates the held
nonce exactly when the response carries one, on success and error responses
alike (the update happens before any status processing). -/
theorem run_request_nonce_update (inner : Inner) (req : Request)
    (r : HttpResponse) (rest : Script) :
    (Inner.run_request inner req (.ok r :: rest)).2.1 =
      ⟨match r.headers.nonce with
        | some nn => some nn
        | none => inner.nonce⟩ := by
  cases hr : r.headers.nonce with
  | none =>
    simp only [Inner.run_request, execute, Inner.update_nonce, hr]
    repeat' split
    all_goals rfl
  | some nn =>
    simp only [Inner.run_request, execute, Inner.update_nonce, hr]
    repeat' split
    all_goals rfl

/-- A transport failure leaves the held nonce untouched. -/
theorem run_request_nonce_transport (inner : Inner) (req : Request)
    (e : Error) (rest : Script) :
    (Inner.run_request inner req (.error e :: rest)).2.1 = inner := rfl

/-- Lemma: `Inner::new_nonce` always performs its HEAD exchange: it consumes exactly
the next scripted exchange, whatever that exchange holds. -/
theorem new_nonce_script_consumed (inner : Inner) (e : ExchangeResult)
    (rest : Script) (url : String) :
    (Inner.new_nonce inner (e :: rest) url).2.2 = rest := by
  cases e with
  | error err => rfl
  | ok resp =>
    simp only [Inner.new_nonce, execute]
    repeat' split
    all_goals rfl

/-- With an empty nonce holder, `Inner::nonce` delegates its script
consumption entirely to the `new_nonce` fetch. -/
theorem nonce_or_fetch_script (inner : Inner) (script : Script) (url : String)
    (h : inner.nonce = none) :
    (Inner.nonce_or_fetch inner script url).2.2 =
      (Inner.new_nonce inner script url).2.2 := by
  simp only [Inner.nonce_or_fetch, h, Option.isNone_none, if_true]
  rcases hx : Inner.new_nonce inner script url with ⟨res, i2, s2⟩
  cases res with
  | error e2 => rfl
  | ok u =>
    cases u
    rcases hni : i2.nonce with _ | nn <;> simp [hni]

/-! ## Claim theorems -/

/-- Claim C1, counterexample: with a per-call script of exactly three
badNonce responses followed by a guaranteed-success exchange, `post_as_get`
already fails with the fatal "kept getting a badNonce error!" message, and
the fourth scripted exchange is never executed (it is still in the script).
This contradicts the claim that the operation retries 3 times and that only
a 4th bad-nonce response is fatal: the 3rd bad-nonce response is already
fatal and no 4th request is issued. -/
theorem C1_counterexample :
    (Client.post_as_get
        ⟨⟨some "n0"⟩, some dirW, some acctW, "https://ca.example/dir",
          [.ok (bad_nonce_response "n1"), .ok (bad_nonce_response "n2"),
            .ok (bad_nonce_response "n3"), .ok okRespW]⟩
        "https://ca.example/x").1 =
      .error (.Client "kept getting a badNonce error!")
    ∧ (Client.post_as_get
        ⟨⟨some "n0"⟩, some dirW, some acctW, "https://ca.example/dir",
          [.ok (bad_nonce_response "n1"), .ok (bad_nonce_response "n2"),
            .ok (bad_nonce_response "n3"), .ok okRespW]⟩
        "https://ca.example/x").2.script = [.ok okRespW] := by
  constructor <;>
    simp [Client.post_as_get, need_account,
      show [Except.ok (bad_nonce_response "n1"), .ok (bad_nonce_response "n2"),
          .ok (bad_nonce_response "n3"), .ok okRespW] =
        Except.ok (bad_nonce_response "n1") :: .ok (bad_nonce_response "n2") ::
          .ok (bad_nonce_response "n3") :: [Except.ok okRespW] from rfl,
      retry_loop_three_bad]

/-- Claim C1 (amended): every workflow operation (`register_account`,
`update_account`, `new_order`, `post_as_get`, `post`, `revoke_certificate`)
starts a fresh per-call retry counter at zero and passes through the loop at
most 3 times: after the 3rd consecutive retryable bad-nonce response it fails
with the fatal message "kept getting a badNonce error!" (note the source's
trailing exclamation mark) without executing any further exchange, so the 3rd
bad-nonce response — not the 4th — is the fatal one. -/
theorem C1_retry_bound (d : Directory) (acct : Account) (ac : AccountCreator)
    (du n n1 n2 n3 url data cert : String) (domains : List String)
    (reason : Option Nat) (rest : Script) :
    Client.register_account
        ⟨⟨some n⟩, some d, some acct, du,
          .ok (bad_nonce_response n1) :: .ok (bad_nonce_response n2) ::
          .ok (bad_nonce_response n3) :: rest⟩ ac =
      (.error (.Client "kept getting a badNonce error!"),
        ⟨⟨some n3⟩, some d, some acct, du, rest⟩)
    ∧ Client.update_account
        ⟨⟨some n⟩, some d, some acct, du,
          .ok (bad_nonce_response n1) :: .ok (bad_nonce_response n2) ::
          .ok (bad_nonce_response n3) :: rest⟩ data =
      (.error (.Client "kept getting a badNonce error!"),
        ⟨⟨some n3⟩, some d, some acct, du, rest⟩)
    ∧ Client.new_order
        ⟨⟨some n⟩, some d, some acct, du,
          .ok (bad_nonce_response n1) :: .ok (bad_nonce_response n2) ::
          .ok (bad_nonce_response n3) :: rest⟩ domains =
      (.error (.Client "kept getting a badNonce error!"),
        ⟨⟨some n3⟩, some d, some acct, du, rest⟩)
    ∧ Client.post_as_get
        ⟨⟨some n⟩, some d, some acct, du,
          .ok (bad_nonce_response n1) :: .ok (bad_nonce_response n2) ::
          .ok (bad_nonce_response n3) :: rest⟩ url =
      (.error (.Client "kept getting a badNonce error!"),
        ⟨⟨some n3⟩, some d, some acct, du, rest⟩)
    ∧ Client.post
        ⟨⟨some n⟩, some d, some acct, du,
          .ok (bad_nonce_response n1) :: .ok (bad_nonce_response n2) ::
          .ok (bad_nonce_response n3) :: rest⟩ url data =
      (.error (.Client "kept getting a badNonce error!"),
        ⟨⟨some n3⟩, some d, some acct, du, rest⟩)
    ∧ Client.revoke_certificate
        ⟨⟨some n⟩, some d, some acct, du,
          .ok (bad_nonce_response n1) :: .ok (bad_nonce_response n2) ::
          .ok (bad_nonce_response n3) :: rest⟩ cert reason =
      (.error (.Client "kept getting a badNonce error!"),
        ⟨⟨some n3⟩, some d, some acct, du, rest⟩) := by
  refine ⟨?_, ?_, ?_, ?_, ?_, ?_⟩
  · simp [Client.register_account, retry_loop_three_bad]
  · simp [Client.update_account, need_account, retry_loop_three_bad]
  · simp [Client.new_order, need_account, retry_loop_three_bad]
  · simp [Client.post_as_get, need_account, retry_loop_three_bad]
  · simp [Client.post, need_account, retry_loop_three_bad]
  · simp [Client.revoke_certificate, need_account, retry_loop_three_bad]

/-- Claim C3: for every sequence of exchanges run through `run_request`, the
nonce held after exchange `n` equals the nonce carried in exchange `n`'s
response headers when one is present (on success and error responses alike),
and otherwise equals the nonce held after exchange `n-1`. -/
theorem C3_nonce_chain (inner : Inner)
    (steps : List (Request × ExchangeResult)) (req : Request)
    (exch : ExchangeResult) :
    (run_request_seq inner (steps ++ [(req, exch)])).nonce =
      match exch with
      | .ok r =>
        match r.headers.nonce with
        | some nn => some nn
        | none => (run_request_seq inner steps).nonce
      | .error _ => (run_request_seq inner steps).nonce := by
  induction steps generalizing inner with
  | nil =>
    cases exch with
    | ok r =>
      simp only [List.nil_append, run_request_seq, run_request_nonce_update]
    | error e =>
      simp only [List.nil_append, run_request_seq, run_request_nonce_transport]
  | cons s tail ih =>
    cases s with
    | mk sreq sexch =>
      simp only [List.cons_append, run_request_seq]
      exact ih _

/-- Claim C4, counterexample: a successful exchange whose response carries no
Replay-Nonce header does *not* leave the nonce holder empty — the previously
held (already used) nonce "n0" stays in place, so the next request does not
re-fetch from the new-nonce endpoint. -/
theorem C4_counterexample :
    (Inner.run_request ⟨some "n0"⟩ reqW
        [.ok ⟨.accountData "fresh", 200, ⟨some "loc", none⟩⟩]).2.1.nonce =
      some "n0"
    ∧ some "n0" ≠ (none : Option String)
    ∧ Inner.nonce_or_fetch ⟨some "n0"⟩ [] "https://ca.example/newNonce" =
        (.ok "n0", ⟨some "n0"⟩, []) := by
  refine ⟨rfl, by simp, rfl⟩

/-- Claim C4 (amended): at most one nonce is held at a time (the holder is a
single optional slot), and every successful exchange either replaces the held
nonce with the one returned in the response headers or, when the response
carries no nonce, leaves the previously held nonce in place unchanged; the
next request re-fetches from the dedicated new-nonce endpoint only when the
holder is empty. -/
theorem C4_nonce_holder (inner : Inner) (req : Request) (r : HttpResponse)
    (rest script : Script) (url n : String) (e : ExchangeResult) :
    (r.is_success = true →
      (Inner.run_request inner req (.ok r :: rest)).2.1 =
        ⟨match r.headers.nonce with
          | some nn => some nn
          | none => inner.nonce⟩)
    ∧ (inner.nonce = some n →
        Inner.nonce_or_fetch inner script url = (.ok n, inner, script))
    ∧ (inner.nonce = none →
        (Inner.nonce_or_fetch inner (e :: rest) url).2.2 = rest) := by
  refine ⟨fun _ => run_request_nonce_update inner req r rest, fun h => ?_, fun h => ?_⟩
  · simp [Inner.nonce_or_fetch, h]
  · rw [nonce_or_fetch_script inner (e :: rest) url h,
      new_nonce_script_consumed]

/-- Claim C4, witness of the amended theorem at concrete inputs. -/
theorem C4_nonce_holder_witness :
    (Inner.run_request ⟨some "n0"⟩ reqW [.ok okRespW]).2.1 = ⟨some "n9"⟩
    ∧ Inner.nonce_or_fetch ⟨some "n0"⟩ [] "https://ca.example/newNonce" =
        (.ok "n0", ⟨some "n0"⟩, [])
    ∧ (Inner.nonce_or_fetch ⟨none⟩ [.ok okRespW] "https://ca.example/newNonce").2.2 =
        [] := by
  refine ⟨?_, ?_, ?_⟩
  · exact (C4_nonce_holder ⟨some "n0"⟩ reqW okRespW [] []
      "https://ca.example/newNonce" "n0" (.ok okRespW)).1 (by decide)
  · exact (C4_nonce_holder ⟨some "n0"⟩ reqW okRespW [] []
      "https://ca.example/newNonce" "n0" (.ok okRespW)).2.1 rfl
  · exact (C4_nonce_holder ⟨none⟩ reqW okRespW [] []
      "https://ca.example/newNonce" "n0" (.ok okRespW)).2.2 rfl

/-- Claim C2: for every executed request whose response has an error status
and whose body parses to the well-known bad-nonce problem type, `run_request`
returns the retryable `BadNonce` error exactly when the response carried a
Replay-Nonce header; with the header absent it returns the fatal
`InvalidApi` protocol error, which is not retryable. -/
theorem C2_bad_nonce_needs_nonce (inner : Inner) (req : Request)
    (r : HttpResponse) (rest : Script) (detail : String)
    (hs : r.is_success = false) (hb : r.body = .errorDoc BAD_NONCE detail) :
    ((Inner.run_request inner req (.ok r :: rest)).1 = .error .BadNonce ↔
      r.headers.nonce.isSome = true)
    ∧ (r.headers.nonce = none →
        (Inner.run_request inner req (.ok r :: rest)).1 =
          .error (.InvalidApi "badNonce without a new Replay-Nonce header"))
    ∧ Error.is_bad_nonce
        (.InvalidApi "badNonce without a new Replay-Nonce header") = false := by
  simp only [HttpResponse.is_success] at hs
  cases hn : r.headers.nonce with
  | none =>
    simp [Inner.run_request, execute, Inner.update_nonce, hn, hs, hb,
      HttpResponse.is_success, HttpResponse.json_error_response,
      Error.is_bad_nonce]
  | some nn =>
    simp [Inner.run_request, execute, Inner.update_nonce, hn, hs, hb,
      HttpResponse.is_success, HttpResponse.json_error_response,
      Error.is_bad_nonce]

/-- Claim C2, witness at concrete inputs: a badNonce problem document with a
Replay-Nonce header yields the retryable error; the same document without
the header yields the fatal protocol error. -/
theorem C2_bad_nonce_needs_nonce_witness :
    (Inner.run_request ⟨some "n0"⟩ reqW [.ok (bad_nonce_response "n1")]).1 =
      .error .BadNonce
    ∧ (Inner.run_request ⟨some "n0"⟩ reqW
        [.ok ⟨.errorDoc BAD_NONCE "stale", 400, ⟨none, none⟩⟩]).1 =
      .error (.InvalidApi "badNonce without a new Replay-Nonce header") := by
  constructor
  · exact (C2_bad_nonce_needs_nonce ⟨some "n0"⟩ reqW (bad_nonce_response "n1") []
      "JWS has an invalid anti-replay nonce" (by decide) rfl).1.mpr rfl
  · exact (C2_bad_nonce_needs_nonce ⟨some "n0"⟩ reqW
      ⟨.errorDoc BAD_NONCE "stale", 400, ⟨none, none⟩⟩ []
      "stale" (by decide) rfl).2.1 rfl

/-- One attempt of the shared loop body against a cached directory, a held
nonce, and a scripted success response whose status matches the built
request's expectation: the attempt returns the response (with its nonce
moved out into the client). -/
theorem acme_attempt_success (mk : Directory → String → Request)
    (d : Directory) (acct : Option Account) (du n : String) (r : HttpResponse)
    (rest : Script) (hs : r.is_success = true)
    (he : r.status = (mk d n).expected) :
    acme_attempt mk ⟨⟨some n⟩, some d, acct, du, .ok r :: rest⟩ =
      (.ok { r with headers := { location := r.headers.location, nonce := none } },
        ⟨⟨match r.headers.nonce with
            | some nn => some nn
            | none => some n⟩, some d, acct, du, rest⟩) := by
  rcases r with ⟨rb, rs, ⟨rl, rn⟩⟩
  simp only [HttpResponse.is_success] at hs
  simp only at he
  rw [he] at hs
  simp only [Bool.and_eq_true, decide_eq_true_eq] at hs
  cases rn with
  | none =>
    simp [acme_attempt, Client.get_directory, Inner.nonce_or_fetch,
      Inner.run_request, execute, Inner.update_nonce, hs, he,
      HttpResponse.is_success]
  | some nn =>
    simp [acme_attempt, Client.get_directory, Inner.nonce_or_fetch,
      Inner.run_request, execute, Inner.update_nonce, hs, he,
      HttpResponse.is_success]

/-- Claim C5: when the exchange of `register_account` (the worker behind
`new_account`) or of `new_order` returns a success status whose response
lacks a Location header, the operation fails with the "missing Location
header" protocol error instead of returning an account or order. -/
theorem C5_location_required (d : Directory) (a : Account)
    (acct : Option Account) (ac : AccountCreator) (du n : String)
    (domains : List String) (rest : Script) (r r2 : HttpResponse)
    (hs : r.is_success = true) (he : r.status = ac.expected)
    (hl : r.headers.location = none)
    (hs2 : r2.is_success = true) (he2 : r2.status = 201)
    (hl2 : r2.headers.location = none) :
    (Client.register_account ⟨⟨some n⟩, some d, acct, du, .ok r :: rest⟩ ac).1 =
      .error (.Client "missing Location header")
    ∧ (Client.new_order ⟨⟨some n⟩, some d, some a, du, .ok r2 :: rest⟩ domains).1 =
      .error (.Client "missing Location header") := by
  constructor
  · have hstep := acme_attempt_success (ac.request) d acct du n r rest hs
      (by simpa [AccountCreator.request] using he)
    rw [Client.register_account, retry_loop_tick]
    simp [Retry.tick, hstep, HttpResponse.location_required, hl]
  · have hstep := acme_attempt_success
      (fun directory nonce =>
        a.new_order_request (domains.foldl OrderData.domain OrderData.new)
          directory nonce)
      d (some a) du n r2 rest hs2
      (by simpa [Account.new_order_request] using he2)
    rw [Client.new_order]
    simp only [need_account]
    rw [retry_loop_tick]
    simp [Retry.tick, hstep, HttpResponse.location_required, hl2]

/-- Claim C5, witness at a concrete no-Location success response. -/
theorem C5_location_required_witness :
    (Client.register_account
        ⟨⟨some "n0"⟩, some dirW, none, "https://ca.example/dir",
          [.ok ⟨.accountData "fresh", 200, ⟨none, some "n1"⟩⟩]⟩
        ⟨[], true, 200⟩).1 =
      .error (.Client "missing Location header")
    ∧ (Client.new_order
        ⟨⟨some "n0"⟩, some dirW, some acctW, "https://ca.example/dir",
          [.ok ⟨.orderData "od", 201, ⟨none, some "n1"⟩⟩]⟩
        ["example.com"]).1 =
      .error (.Client "missing Location header") :=
  C5_location_required dirW acctW none ⟨[], true, 200⟩
    "https://ca.example/dir" "n0" ["example.com"] []
    ⟨.accountData "fresh", 200, ⟨none, some "n1"⟩⟩
    ⟨.orderData "od", 201, ⟨none, some "n1"⟩⟩
    (by decide) rfl rfl (by decide) rfl rfl

/-- The directory fetch never touches the nonce holder: `get_directory` runs
a bare `execute` and never calls `update_nonce`, so any Replay-Nonce header
on the directory response is discarded. -/
theorem get_directory_nonce_frame (c : Client) :
    (Client.get_directory c).2.inner = c.inner := by
  simp only [Client.get_directory]
  repeat' split
  all_goals rfl

/-- A failing directory fetch leaves the cache field unchanged. -/
theorem get_directory_error_frame (c : Client) (e : Error) (c2 : Client)
    (h : Client.get_directory c = (.error e, c2)) :
    c2.directory = c.directory := by
  simp only [Client.get_directory] at h
  split at h
  · exact absurd h (by simp)
  · split at h
    · rw [Prod.mk.injEq] at h
      rw [← h.2]
    · split at h
      · rw [Prod.mk.injEq] at h
        rw [← h.2]
      · split at h
        · rw [Prod.mk.injEq] at h
          rw [← h.2]
        · exact absurd h (by simp)

/-- Claim C9: `get_directory` returns a cached directory without any network
exchange; on an empty cache it fetches, and it caches only on a success
status with a well-formed body — any failure leaves the cache field exactly
as it was, so a later call fetches afresh. -/
theorem C9_directory_cache :
    (∀ c e c2, Client.get_directory c = (.error e, c2) →
      c2.directory = c.directory)
    ∧ (∀ c dd, c.directory = some dd → Client.get_directory c = (.ok dd, c))
    ∧ (∀ c r rest ddata, c.directory = none → c.script = .ok r :: rest →
        r.is_success = true → r.body = .directoryData ddata →
        Client.get_directory c =
          (.ok (Directory.from_parts c.directory_url ddata),
            { c with
              directory := some (Directory.from_parts c.directory_url ddata),
              script := rest })) := by
  refine ⟨fun c e c2 h => get_directory_error_frame c e c2 h, ?_, ?_⟩
  · intro c dd h
    simp [Client.get_directory, h]
  · intro c r rest ddata h1 h2 h3 h4
    simp [Client.get_directory, h1, h2, execute, h3, h4,
      HttpResponse.json_directory]

/-- Claim C9, witness at concrete inputs: an error-status fetch caches
nothing; a cached directory is returned with the script untouched; a
successful fetch caches the parsed directory. -/
theorem C9_directory_cache_witness :
    (Client.get_directory
        ⟨⟨none⟩, none, none, "https://ca.example/dir",
          [.ok ⟨.invalid, 500, ⟨none, none⟩⟩]⟩).2.directory = none
    ∧ Client.get_directory
        ⟨⟨none⟩, some dirW, none, "https://ca.example/dir", []⟩ =
      (.ok dirW, ⟨⟨none⟩, some dirW, none, "https://ca.example/dir", []⟩)
    ∧ Client.get_directory
        ⟨⟨none⟩, none, none, "https://ca.example/dir",
          [.ok ⟨.directoryData "dd", 200, ⟨none, none⟩⟩]⟩ =
      (.ok (Directory.from_parts "https://ca.example/dir" "dd"),
        ⟨⟨none⟩, some (Directory.from_parts "https://ca.example/dir" "dd"),
          none, "https://ca.example/dir", []⟩) := by
  refine ⟨?_, ?_, ?_⟩
  · have h1 : Client.get_directory
        ⟨⟨none⟩, none, none, "https://ca.example/dir",
          [.ok ⟨.invalid, 500, ⟨none, none⟩⟩]⟩ =
        (.error (.Client "GET on the directory URL returned error status"),
          ⟨⟨none⟩, none, none, "https://ca.example/dir", []⟩) := by decide
    have h2 := C9_directory_cache.1 _ _ _ h1
    rw [h1]
  · exact C9_directory_cache.2.1 _ dirW rfl
  · exact C9_directory_cache.2.2 _ ⟨.directoryData "dd", 200, ⟨none, none⟩⟩
      [] "dd" rfl rfl (by decide) rfl

/-- Claim C10: the directory fetch never changes the held nonce, hence the
short-circuit branch of `Client::new_nonce` ("we already got a nonce from
querying the directory") is unreachable: whenever the directory is obtained,
`new_nonce` always proceeds to the HEAD fetch against the new-nonce URL,
which always consumes its scripted exchange. -/
theorem C10_new_nonce_always_fetches :
    (∀ c, (Client.get_directory c).2.inner.nonce = c.inner.nonce)
    ∧ (∀ c directory c2, Client.get_directory c = (.ok directory, c2) →
        Client.new_nonce c =
          ((Inner.new_nonce c2.inner c2.script directory.new_nonce_url).1,
            { c2 with
              inner := (Inner.new_nonce c2.inner c2.script
                directory.new_nonce_url).2.1,
              script := (Inner.new_nonce c2.inner c2.script
                directory.new_nonce_url).2.2 }))
    ∧ (∀ inner e rest url, (Inner.new_nonce inner (e :: rest) url).2.2 = rest) := by
  refine ⟨fun c => by rw [get_directory_nonce_frame], ?_,
    fun inner e rest url => new_nonce_script_consumed inner e rest url⟩
  intro c directory c2 h
  have hfr : c2.inner.nonce = c.inner.nonce := by
    have := get_directory_nonce_frame c
    rw [h] at this
    rw [this]
  simp only [Client.new_nonce, h]
  have hcond : (c.inner.nonce.isNone && c2.inner.nonce.isSome) = false := by
    rw [hfr]
    cases c.inner.nonce <;> simp
  rw [hcond]
  simp

/-- Claim C10, witness at a concrete client with no cached directory and no
held nonce: the short-circuit is not taken and the HEAD exchange is
consumed. -/
theorem C10_new_nonce_always_fetches_witness :
    Client.new_nonce
        ⟨⟨none⟩, none, none, "https://ca.example/dir",
          [.ok ⟨.directoryData "dd", 200, ⟨none, some "dirnonce"⟩⟩,
            .ok ⟨.invalid, 200, ⟨none, some "n1"⟩⟩]⟩ =
      (.ok (),
        ⟨⟨some "n1"⟩,
          some (Directory.from_parts "https://ca.example/dir" "dd"), none,
          "https://ca.example/dir", []⟩) := by
  rw [C10_new_nonce_always_fetches.2.1 _
    (Directory.from_parts "https://ca.example/dir" "dd")
    ⟨⟨none⟩, some (Directory.from_parts "https://ca.example/dir" "dd"), none,
      "https://ca.example/dir", [.ok ⟨.invalid, 200, ⟨none, some "n1"⟩⟩]⟩
    (by decide)]
  rfl

/-- Claim C6, counterexample: with empty configured plugin data the code
writes exactly the digest and the single separator newline ("abcd\n"),
whereas the claim's rule ("a trailing newline appended only if the data does
not already end in a newline" — and empty data does not) demands
"abcd\n\n".  The code checks the last byte of the whole buffer, not of the
configured data. -/
theorem C6_counterexample :
    DnsPlugin.stdin_data ⟨⟨"api1", none⟩, []⟩ ['a', 'b', 'c', 'd'] =
      ['a', 'b', 'c', 'd', '\n']
    ∧ DnsPlugin.stdin_data ⟨⟨"api1", none⟩, []⟩ ['a', 'b', 'c', 'd'] ≠
        DnsPlugin.stdin_data_speced ⟨⟨"api1", none⟩, []⟩ ['a', 'b', 'c', 'd'] := by
  decide

/-- Claim C6 (amended): for nonempty configured data the helper's standard
input is exactly the digest, one newline, the data, and one trailing newline
appended only if the data does not already end in a newline (so for digest
"abcd" exactly "abcd\n<configured-data>\n"); for empty configured data the
input is the digest and a single newline, with no extra trailing newline
appended. -/
theorem C6_stdin_data (p : DnsPlugin) (txt : List Char) :
    (p.data ≠ [] →
      DnsPlugin.stdin_data p txt = DnsPlugin.stdin_data_speced p txt)
    ∧ (p.data = [] → DnsPlugin.stdin_data p txt = txt ++ ['\n']) := by
  constructor
  · intro h
    rw [DnsPlugin.stdin_data, DnsPlugin.stdin_data_speced]
    rw [List.append_assoc]
    rw [List.getLast?_append_of_ne_nil txt
      (show (['\n'] ++ p.data) ≠ [] by simp)]
    rw [List.getLast?_append_of_ne_nil ['\n'] h]
    split
    · simp
    · simp_all
  · intro h
    rw [DnsPlugin.stdin_data, h]
    simp

/-- Claim C6, witness of the amended theorem: nonempty data "user=x" (no
trailing newline) gets one appended; nonempty data ending in a newline gets
none; empty data yields the digest plus the single separator newline. -/
theorem C6_stdin_data_witness :
    DnsPlugin.stdin_data ⟨⟨"api1", none⟩, ['u', '=', 'x']⟩ ['a', 'b'] =
      DnsPlugin.stdin_data_speced ⟨⟨"api1", none⟩, ['u', '=', 'x']⟩ ['a', 'b']
    ∧ DnsPlugin.stdin_data ⟨⟨"api1", none⟩, ['u', '\n']⟩ ['a', 'b'] =
      DnsPlugin.stdin_data_speced ⟨⟨"api1", none⟩, ['u', '\n']⟩ ['a', 'b']
    ∧ DnsPlugin.stdin_data ⟨⟨"api1", none⟩, []⟩ ['a', 'b'] = ['a', 'b', '\n'] :=
  ⟨(C6_stdin_data ⟨⟨"api1", none⟩, ['u', '=', 'x']⟩ ['a', 'b']).1 (by decide),
    (C6_stdin_data ⟨⟨"api1", none⟩, ['u', '\n']⟩ ['a', 'b']).1 (by decide),
    (C6_stdin_data ⟨⟨"api1", none⟩, []⟩ ['a', 'b']).2 rfl⟩

/-- Claim C7, counterexample: `DnsPlugin::setup` sleeps for the (default 30
second) delay even when the setup action failed — the action's error is
captured, the sleep runs, and only then is the error returned.  This
contradicts the claim that the sleep happens only after a successful setup
action. -/
theorem C7_counterexample :
    DnsPlugin.setup ⟨⟨"api1", none⟩, []⟩
        (.error (.Client "setup action failed")) =
      (some 30, .error (.Client "setup action failed")) := by
  decide

/-- Claim C7 (amended): `DnsPlugin::setup` sleeps for the configured delay
(default 30 seconds when unconfigured; a configured 0 disables the sleep)
before returning, and it does so after the setup action regardless of
whether the action succeeded or failed, returning the action's result
unchanged afterwards. -/
theorem C7_setup_sleep (p : DnsPlugin) (res res2 : Except Error String) :
    (DnsPlugin.setup p res).2 = res
    ∧ (DnsPlugin.setup p res).1 = (DnsPlugin.setup p res2).1
    ∧ (p.core.validation_delay = none → (DnsPlugin.setup p res).1 = some 30)
    ∧ (p.core.validation_delay = some 0 → (DnsPlugin.setup p res).1 = none)
    ∧ (∀ k, 0 < k → p.core.validation_delay = some k →
        (DnsPlugin.setup p res).1 = some k) := by
  refine ⟨?_, ?_, fun h => ?_, fun h => ?_, fun k hk h => ?_⟩
  · rw [DnsPlugin.setup]
    split <;> rfl
  · rw [DnsPlugin.setup, DnsPlugin.setup]
    split <;> rfl
  · simp [DnsPlugin.setup, h]
  · simp [DnsPlugin.setup, h]
  · simp [DnsPlugin.setup, h, hk]

/-- Claim C7, witness of the amended theorem at concrete inputs: default
delay sleeps 30 even around a failed action; configured 0 disables the
sleep; configured 10 sleeps 10. -/
theorem C7_setup_sleep_witness :
    (DnsPlugin.setup ⟨⟨"api1", none⟩, []⟩
        (.error (.Client "setup action failed"))).2 =
      .error (.Client "setup action failed")
    ∧ (DnsPlugin.setup ⟨⟨"api1", none⟩, []⟩
        (.error (.Client "setup action failed"))).1 = some 30
    ∧ (DnsPlugin.setup ⟨⟨"api1", some 0⟩, []⟩ (.ok "url")).1 = none
    ∧ (DnsPlugin.setup ⟨⟨"api1", some 10⟩, []⟩ (.ok "url")).1 = some 10 :=
  ⟨(C7_setup_sleep ⟨⟨"api1", none⟩, []⟩
      (.error (.Client "setup action failed")) (.ok "x")).1,
    (C7_setup_sleep ⟨⟨"api1", none⟩, []⟩
      (.error (.Client "setup action failed")) (.ok "x")).2.2.1 rfl,
    (C7_setup_sleep ⟨⟨"api1", some 0⟩, []⟩ (.ok "url") (.ok "x")).2.2.2.1 rfl,
    (C7_setup_sleep ⟨⟨"api1", some 10⟩, []⟩ (.ok "url") (.ok "x")).2.2.2.2
      10 (by decide) rfl⟩

/-- Claim C8: after HTTP-01 setup with token `t`, the standalone responder
answers a GET for exactly `/.well-known/acme-challenge/t` with status 200
and the key-authorization string as body, and every other method/path
combination with status 404 and the fixed body "Not found.". -/
theorem C8_standalone_respond (token key_auth : String)
    (req : HttpRequestModel) :
    (req.method = "GET" → req.path = challenge_path token →
      standalone_respond req (challenge_path token) key_auth = (200, key_auth))
    ∧ (¬(req.method = "GET" ∧ req.path = challenge_path token) →
      standalone_respond req (challenge_path token) key_auth =
        (404, "Not found.")) := by
  constructor
  · intro h1 h2
    rw [standalone_respond, if_pos ⟨h1, h2⟩]
  · intro h
    rw [standalone_respond, if_neg h]

/-- Claim C8, witness at token "tok1": the exact well-known GET is served the
key authorization; a POST to the same path and a GET elsewhere get 404. -/
theorem C8_standalone_respond_witness :
    standalone_respond ⟨"GET", "/.well-known/acme-challenge/tok1"⟩
        (challenge_path "tok1") "tok1.keyauth" = (200, "tok1.keyauth")
    ∧ standalone_respond ⟨"POST", "/.well-known/acme-challenge/tok1"⟩
        (challenge_path "tok1") "tok1.keyauth" = (404, "Not found.")
    ∧ standalone_respond ⟨"GET", "/index.html"⟩
        (challenge_path "tok1") "tok1.keyauth" = (404, "Not found.") :=
  ⟨(C8_standalone_respond "tok1" "tok1.keyauth"
      ⟨"GET", "/.well-known/acme-challenge/tok1"⟩).1 rfl (by decide),
    (C8_standalone_respond "tok1" "tok1.keyauth"
      ⟨"POST", "/.well-known/acme-challenge/tok1"⟩).2 (by decide),
    (C8_standalone_respond "tok1" "tok1.keyauth"
      ⟨"GET", "/index.html"⟩).2 (by decide)⟩

end ProxmoxAcme
